import Mathlib

/-!
Verification of the bouldering-competition scoring engine
(`accounts/services/result_service.py`, `accounts/services/scoring_service.py`
and the model declarations in `accounts/models.py`).

Modelling conventions for the shallow embedding:
* Python `int` database columns declared `PositiveIntegerField` are embedded
  as `Nat`; raw, attacker-controlled attempt counts arriving at the
  normalizer are embedded as `Int` (they may be negative).
* Python floats (the dynamic top percentage) are embedded as `ℚ`; the
  claims about the tier lookup only depend on order comparisons, which the
  embedding preserves.
* Python dicts returned by the scoring functions are embedded as a
  structure of `Option` fields; `dict.get(k, 0)` becomes `Option.getD _ 0`.
* Imperative `+=` accumulation loops are embedded as sums of per-result
  contribution functions (`List.map` + `List.sum`, counts via `countP`).
* `x or y` on Python ints (the legacy-attempts fallback idiom) becomes
  `if x ≠ 0 then x else y`.
* The `Result.version` column and the version bump performed by
  `Result.save()` are not part of the checked-in `models.py`; they are
  modelled from the spec (see `Result` and `write_result`).
-/

/-- One row of the `Boulder` table; only the fields read by the engine. -/
structure Boulder where
  id : Nat
  zone_count : Nat
deriving DecidableEq, Repr

/-- One row of the `Participant` table; only the fields read by the engine.
`age_group_id` is `none` for a participant with no age-group assignment.
The name is modelled as its list of characters (code points); Python
compares strings lexicographically by code point, which is the `List.Lex`
order on this field, and `str.lower()` becomes `List.map Char.toLower`. -/
structure Participant where
  id : Nat
  name : List Char
  age_group_id : Option Nat
deriving DecidableEq, Repr

/-- One row of the `Result` table (`accounts/models.py`, class `Result`),
joined with the `zone_count` of its boulder (the scoring code reads
`res.boulder.zone_count` through the foreign key).
`version` is modelled from the spec: `models.py` as checked in does not
declare the column, but `result_service.py` reads and compares it and the
spec describes it as an optimistic-concurrency counter. -/
structure Result where
  boulder_id : Nat
  boulder_zone_count : Nat
  top : Bool
  zone1 : Bool
  zone2 : Bool
  attempts : Nat
  attempts_top : Nat
  attempts_zone1 : Nat
  attempts_zone2 : Nat
  version : Int
  updated_at : Nat
deriving DecidableEq, Repr

/-- The `SubmittedResult` dataclass of `result_service.py`.  Attempt counts
are raw client input and may be negative. -/
structure SubmittedResult where
  zone1 : Bool
  zone2 : Bool
  top : Bool
  attempts_zone1 : Int
  attempts_zone2 : Int
  attempts_top : Int
  version : Option Int
deriving DecidableEq, Repr

namespace ResultService

/-- `ResultService._normalize_no_zones`. -/
def _normalize_no_zones (submission : SubmittedResult) : SubmittedResult :=
  let attempts_top := max submission.attempts_top 0
  let attempts_top := if submission.top ∧ attempts_top < 1 then 1 else attempts_top
  { zone1 := false
    zone2 := false
    top := submission.top
    attempts_zone1 := 0
    attempts_zone2 := 0
    attempts_top := attempts_top
    version := submission.version }

/-- Flag block of `ResultService._normalize_single_zone`
(`top ⇒ zone1`, `¬zone1 ⇒ ¬top`). -/
def _single_zone_flags (s : SubmittedResult) : SubmittedResult :=
  let zone1 := s.zone1
  let top := s.top
  let zone1 := if top then true else zone1
  let top := if ¬ zone1 then false else top
  { s with zone1 := zone1, top := top }

/-- Clamp block of `_normalize_single_zone`: attempts to ≥ 0, achieved
flags to ≥ 1 attempt. -/
def _single_zone_clamp (s : SubmittedResult) : SubmittedResult :=
  let attempts_z1 := max s.attempts_zone1 0
  let attempts_top := max s.attempts_top 0
  let attempts_z1 := if s.zone1 ∧ attempts_z1 < 1 then 1 else attempts_z1
  let attempts_top := if s.top ∧ attempts_top < 1 then 1 else attempts_top
  { s with attempts_zone1 := attempts_z1, attempts_top := attempts_top }

/-- Downward-propagation line of `_normalize_single_zone`
(`if top and attempts_top and attempts_z1 == 0`). -/
def _single_zone_propagate (s : SubmittedResult) : SubmittedResult :=
  let attempts_z1 :=
    if s.top ∧ s.attempts_top ≠ 0 ∧ s.attempts_zone1 = 0 then s.attempts_top
    else s.attempts_zone1
  { s with attempts_zone1 := attempts_z1 }

/-- Raising line of `_normalize_single_zone`
(`if top and attempts_top and attempts_top < attempts_z1`). -/
def _single_zone_raise (s : SubmittedResult) : SubmittedResult :=
  let attempts_top :=
    if s.top ∧ s.attempts_top ≠ 0 ∧ s.attempts_top < s.attempts_zone1 then s.attempts_zone1
    else s.attempts_top
  { s with attempts_top := attempts_top }

/-- `ResultService._normalize_single_zone`: the four statement blocks of the
source in order, and the returned record forces `zone2=False`,
`attempts_zone2=0`. -/
def _normalize_single_zone (submission : SubmittedResult) : SubmittedResult :=
  let r :=
    _single_zone_raise (_single_zone_propagate (_single_zone_clamp
      (_single_zone_flags submission)))
  { r with zone2 := false, attempts_zone2 := 0 }

/-- Flag block of `ResultService._normalize_two_zones`
(`top ⇒ zone2,zone1`; `zone2 ⇒ zone1`; `¬zone1 ⇒ ¬zone2,¬top`). -/
def _two_zones_flags (s : SubmittedResult) : SubmittedResult :=
  let zone1 := s.zone1
  let zone2 := s.zone2
  let top := s.top
  let zone2 := if top then true else zone2
  let zone1 := if top then true else zone1
  let zone1 := if zone2 ∧ ¬ zone1 then true else zone1
  let zone2 := if ¬ zone1 then false else zone2
  let top := if ¬ zone1 then false else top
  { s with zone1 := zone1, zone2 := zone2, top := top }

/-- Clamp block of `_normalize_two_zones`: attempts to ≥ 0, achieved flags
to ≥ 1 attempt. -/
def _two_zones_clamp (s : SubmittedResult) : SubmittedResult :=
  let attempts_z1 := max s.attempts_zone1 0
  let attempts_z2 := max s.attempts_zone2 0
  let attempts_top := max s.attempts_top 0
  let attempts_z1 := if s.zone1 ∧ attempts_z1 < 1 then 1 else attempts_z1
  let attempts_z2 := if s.zone2 ∧ attempts_z2 < 1 then 1 else attempts_z2
  let attempts_top := if s.top ∧ attempts_top < 1 then 1 else attempts_top
  { s with
    attempts_zone1 := attempts_z1
    attempts_zone2 := attempts_z2
    attempts_top := attempts_top }

/-- Downward-propagation block of `_normalize_two_zones`
(top→zone2, top→zone1, zone2→zone1 attempt propagation). -/
def _two_zones_propagate (s : SubmittedResult) : SubmittedResult :=
  let attempts_z2 :=
    if s.top ∧ s.attempts_top ≠ 0 ∧ s.attempts_zone2 = 0 then s.attempts_top
    else s.attempts_zone2
  let attempts_z1 :=
    if s.top ∧ s.attempts_top ≠ 0 ∧ s.attempts_zone1 = 0 then s.attempts_top
    else s.attempts_zone1
  let attempts_z1 :=
    if s.zone2 ∧ attempts_z2 ≠ 0 ∧ attempts_z1 = 0 then attempts_z2 else attempts_z1
  { s with attempts_zone1 := attempts_z1, attempts_zone2 := attempts_z2 }

/-- Raising block of `_normalize_two_zones`: enforce
`attempts_z2 ≥ attempts_z1` and `attempts_top ≥ baseline`. -/
def _two_zones_raise (s : SubmittedResult) : SubmittedResult :=
  let attempts_z2 :=
    if s.zone2 ∧ s.attempts_zone2 ≠ 0 ∧ s.attempts_zone2 < s.attempts_zone1 then
      s.attempts_zone1
    else s.attempts_zone2
  let attempts_top :=
    if s.top ∧ s.attempts_top ≠ 0 then
      let baseline := if s.zone2 then attempts_z2 else s.attempts_zone1
      if s.attempts_top < baseline then baseline else s.attempts_top
    else s.attempts_top
  { s with attempts_zone2 := attempts_z2, attempts_top := attempts_top }

/-- `ResultService._normalize_two_zones`: the four statement blocks of the
source, in source order. -/
def _normalize_two_zones (submission : SubmittedResult) : SubmittedResult :=
  _two_zones_raise (_two_zones_propagate (_two_zones_clamp
    (_two_zones_flags submission)))

/-- `ResultService.normalize_submission`: dispatch on the boulder's
`zone_count`. -/
def normalize_submission (boulder : Boulder) (submission : SubmittedResult) :
    SubmittedResult :=
  if boulder.zone_count = 0 then _normalize_no_zones submission
  else if boulder.zone_count = 1 then _normalize_single_zone submission
  else _normalize_two_zones submission

end ResultService

/-- The JSON payload dict built by `ResultService.result_to_payload`.
`updated_at.timestamp()` is modelled as the abstract `updated_at` value. -/
structure Payload where
  top : Bool
  zone2 : Bool
  zone1 : Bool
  attempts_top : Nat
  attempts_zone2 : Nat
  attempts_zone1 : Nat
  version : Int
  updated_at : Nat
deriving DecidableEq, Repr

namespace ResultService

/-- `ResultService.result_to_payload`. -/
def result_to_payload (result : Result) : Payload :=
  { top := result.top
    zone2 := result.zone2
    zone1 := result.zone1
    attempts_top := result.attempts_top
    attempts_zone2 := result.attempts_zone2
    attempts_zone1 := result.attempts_zone1
    version := result.version
    updated_at := result.updated_at }

/-- The field assignments plus `save()` of `handle_submission`'s write path.
The submission has been normalized, so its attempt counts are ≥ 0 and
`Int.toNat` is lossless.  The `version` bump performed by `save()` is
modelled from the spec: the column and its maintenance are not part of the
checked-in `models.py`, the spec describes an optimistic-concurrency
counter advanced by each successful write.  `updated_at` is the `auto_now`
timestamp, passed in as `now`. -/
def write_result (current : Result) (submission : SubmittedResult) (now : Nat) : Result :=
  { current with
    zone1 := submission.zone1
    zone2 := submission.zone2
    top := submission.top
    attempts_zone1 := submission.attempts_zone1.toNat
    attempts_zone2 := submission.attempts_zone2.toNat
    attempts_top := submission.attempts_top.toNat
    attempts :=
      (if submission.top then submission.attempts_top
       else if submission.zone2 then submission.attempts_zone2
       else submission.attempts_zone1).toNat
    version := current.version + 1
    updated_at := now }

/-- A fresh `Result(participant=..., boulder=...)` row with the model's
field defaults; its `version` starts at 0 (modelled from the spec, see
`Result`). -/
def new_result (boulder : Boulder) : Result :=
  { boulder_id := boulder.id
    boulder_zone_count := boulder.zone_count
    top := false
    zone1 := false
    zone2 := false
    attempts := 0
    attempts_top := 0
    attempts_zone1 := 0
    attempts_zone2 := 0
    version := 0
    updated_at := 0 }

/-- The per-boulder loop body of `ResultService.handle_submission`:
normalize, then either reject on a version conflict (returning the stored
row's payload unchanged) or write the submission. -/
def submit_one (boulder : Boulder) (current : Option Result)
    (raw : SubmittedResult) (now : Nat) : Result × Payload :=
  let submission := normalize_submission boulder raw
  match current with
  | some cur =>
    match submission.version with
    | some v =>
      if cur.version ≠ v then
        (cur, result_to_payload cur)
      else
        let written := write_result cur submission now
        (written, result_to_payload written)
    | none =>
      let written := write_result cur submission now
      (written, result_to_payload written)
  | none =>
    let written := write_result (new_result boulder) submission now
    (written, result_to_payload written)

/-- The cache purge at the end of `ResultService.handle_submission`
(result_service.py lines 267-272): keys are deleted only under
`if participant.age_group_id:`. -/
def scoreboard_invalidation_keys (participant : Participant) : List String :=
  match participant.age_group_id with
  | some g =>
    ((["ifsc", "point_based"]).map (fun grading =>
      ["scoreboard_" ++ toString g ++ "_" ++ grading,
       "scoreboard_all_" ++ grading])).join
  | none => []

/-- `ResultService.handle_submission`: the per-boulder payload map
(association list keyed by boulder id) together with the list of cache
keys deleted afterwards. -/
def handle_submission (participant : Participant)
    (items : List (Boulder × Option Result × SubmittedResult)) (now : Nat) :
    List (Nat × Payload) × List String :=
  (items.map (fun item => (item.1.id, (submit_one item.1 item.2.1 item.2.2 now).2)),
   scoreboard_invalidation_keys participant)

end ResultService

/-- The `CompetitionSettings` singleton (`accounts/models.py`): the numeric
tuning parameters read by the scoring functions. -/
structure CompetitionSettings where
  grading_system : String
  top_points : Nat
  flash_points : Nat
  min_top_points : Nat
  top_points_100 : Nat
  top_points_90 : Nat
  top_points_80 : Nat
  top_points_70 : Nat
  top_points_60 : Nat
  top_points_50 : Nat
  top_points_40 : Nat
  top_points_30 : Nat
  top_points_20 : Nat
  top_points_10 : Nat
  zone_points : Nat
  zone1_points : Nat
  zone2_points : Nat
  min_zone_points : Nat
  min_zone1_points : Nat
  min_zone2_points : Nat
  attempt_penalty : Nat
deriving DecidableEq, Repr

/-- The aggregate dict returned by the scoring functions.  Each scorer
fills only some keys; `dict.get(k, 0)` on a missing key is modelled with
`Option.getD`. -/
structure Agg where
  points : Option Int
  tops : Option Int
  zones : Option Int
  attempts : Option Int
  top_attempts : Option Int
  zone_attempts : Option Int
deriving DecidableEq, Repr

namespace ScoringService

def POINT_BASED_SYSTEMS : List String :=
  ["point_based", "point_based_dynamic", "point_based_dynamic_attempts"]

def DYNAMIC_SYSTEMS : List String :=
  ["point_based_dynamic", "point_based_dynamic_attempts"]

/-- `ScoringService.score_ifsc`.  The accumulating loop is modelled as
counts and sums of per-result contributions. -/
def score_ifsc (results : List Result) : Agg :=
  let tops := results.countP (fun res => res.top)
  let zones := results.countP (fun res => res.zone2 || res.zone1)
  let top_attempts := (results.map (fun res =>
    if res.top then (if res.attempts_top ≠ 0 then res.attempts_top else res.attempts)
    else 0)).sum
  let zone_attempts := (results.map (fun res =>
    if res.zone2 || res.zone1 then
      if res.zone2 then (if res.attempts_zone2 ≠ 0 then res.attempts_zone2 else res.attempts)
      else (if res.attempts_zone1 ≠ 0 then res.attempts_zone1 else res.attempts)
    else 0)).sum
  { points := none
    tops := some (tops : Int)
    zones := some (zones : Int)
    attempts := none
    top_attempts := some (top_attempts : Int)
    zone_attempts := some (zone_attempts : Int) }

/-- The `attempts_used` value of the zone branch shared by the three
point-based scorers.  Mirrors the Python expression
`res.attempts_zone2 if res.zone2 else res.attempts_zone1 or res.attempts`:
by operator precedence the legacy fallback applies only to
`attempts_zone1`. -/
def zone_attempts_used (res : Result) : Nat :=
  if res.zone2 then res.attempts_zone2
  else if res.attempts_zone1 ≠ 0 then res.attempts_zone1 else res.attempts

/-- `res.attempts_top or res.attempts` of the top branches. -/
def top_attempts_used (res : Result) : Nat :=
  if res.attempts_top ≠ 0 then res.attempts_top else res.attempts

/-- The `total_attempts` contribution of one result, shared verbatim by
`score_point_based`, `score_point_based_dynamic` and
`score_point_based_dynamic_attempts`. -/
def total_attempts_for (res : Result) : Nat :=
  if res.top then top_attempts_used res
  else if res.zone2 || res.zone1 then zone_attempts_used res
  else res.attempts

/-- The `points` contribution of one result in `ScoringService.score_point_based`. -/
def pb_points_for (settings : CompetitionSettings) (res : Result) : Int :=
  if res.top then
    let attempts_used := top_attempts_used res
    let base : Int :=
      if attempts_used = 1 then settings.flash_points else settings.top_points
    let penalty : Int := settings.attempt_penalty * max ((attempts_used : Int) - 1) 0
    max (base - penalty) (settings.min_top_points : Int)
  else if res.zone2 || res.zone1 then
    let attempts_used := zone_attempts_used res
    let is_two_zone := 2 ≤ res.boulder_zone_count
    let base : Int :=
      if res.zone2 then settings.zone2_points
      else if is_two_zone then settings.zone1_points
      else settings.zone_points
    let min_zone : Int :=
      if res.zone2 then settings.min_zone2_points
      else if is_two_zone then settings.min_zone1_points
      else settings.min_zone_points
    let penalty : Int := settings.attempt_penalty * max ((attempts_used : Int) - 1) 0
    max (base - penalty) min_zone
  else 0

/-- `ScoringService.score_point_based`. -/
def score_point_based (results : List Result) (settings : CompetitionSettings) : Agg :=
  { points := some ((results.map (pb_points_for settings)).sum)
    tops := some (results.countP (fun res => res.top) : Int)
    zones := some (results.countP (fun res => !res.top && (res.zone2 || res.zone1)) : Int)
    attempts := some ((results.map total_attempts_for).sum : Int)
    top_attempts := none
    zone_attempts := none }

/-- `ScoringService.get_dynamic_top_points`: strictly-greater-than tier
walk from the highest tier down. -/
def get_dynamic_top_points (settings : CompetitionSettings) (top_percentage : ℚ) : Nat :=
  if top_percentage > 90 then settings.top_points_100
  else if top_percentage > 80 then settings.top_points_90
  else if top_percentage > 70 then settings.top_points_80
  else if top_percentage > 60 then settings.top_points_70
  else if top_percentage > 50 then settings.top_points_60
  else if top_percentage > 40 then settings.top_points_50
  else if top_percentage > 30 then settings.top_points_40
  else if top_percentage > 20 then settings.top_points_30
  else if top_percentage > 10 then settings.top_points_20
  else settings.top_points_10

/-- `top_percentage` as computed in both dynamic scorers:
`(top_counts.get(res.boulder_id, 0) / participant_count * 100) if
participant_count > 0 else 0`.  `top_counts` is the tally dict modelled as
a total function (missing keys read 0). -/
def top_percentage_of (top_counts : Nat → Nat) (participant_count : Nat)
    (boulder_id : Nat) : ℚ :=
  if participant_count > 0 then
    (top_counts boulder_id : ℚ) / (participant_count : ℚ) * 100
  else 0

/-- The `points` contribution of one result in
`ScoringService.score_point_based_dynamic` (no attempt penalties). -/
def pbd_points_for (settings : CompetitionSettings) (top_counts : Nat → Nat)
    (participant_count : Nat) (res : Result) : Int :=
  if res.top then
    let attempts_used := top_attempts_used res
    if attempts_used = 1 then (settings.flash_points : Int)
    else
      (get_dynamic_top_points settings
        (top_percentage_of top_counts participant_count res.boulder_id) : Int)
  else if res.zone2 || res.zone1 then
    let is_two_zone := 2 ≤ res.boulder_zone_count
    if res.zone2 then (settings.zone2_points : Int)
    else if is_two_zone then (settings.zone1_points : Int)
    else (settings.zone_points : Int)
  else 0

/-- `ScoringService.score_point_based_dynamic`. -/
def score_point_based_dynamic (results : List Result)
    (settings : CompetitionSettings) (top_counts : Nat → Nat)
    (participant_count : Nat) : Agg :=
  { points := some ((results.map (pbd_points_for settings top_counts participant_count)).sum)
    tops := some (results.countP (fun res => res.top) : Int)
    zones := some (results.countP (fun res => !res.top && (res.zone2 || res.zone1)) : Int)
    attempts := some ((results.map total_attempts_for).sum : Int)
    top_attempts := none
    zone_attempts := none }

/-- The `points` contribution of one result in
`ScoringService.score_point_based_dynamic_attempts` (tier lookup plus the
penalty-and-floor formula). -/
def pbda_points_for (settings : CompetitionSettings) (top_counts : Nat → Nat)
    (participant_count : Nat) (res : Result) : Int :=
  if res.top then
    let attempts_used := top_attempts_used res
    if attempts_used = 1 then (settings.flash_points : Int)
    else
      let base : Int :=
        (get_dynamic_top_points settings
          (top_percentage_of top_counts participant_count res.boulder_id) : Int)
      let penalty : Int := settings.attempt_penalty * max ((attempts_used : Int) - 1) 0
      max (base - penalty) (settings.min_top_points : Int)
  else if res.zone2 || res.zone1 then
    let attempts_used := zone_attempts_used res
    let is_two_zone := 2 ≤ res.boulder_zone_count
    let base : Int :=
      if res.zone2 then settings.zone2_points
      else if is_two_zone then settings.zone1_points
      else settings.zone_points
    let min_zone : Int :=
      if res.zone2 then settings.min_zone2_points
      else if is_two_zone then settings.min_zone1_points
      else settings.min_zone_points
    let penalty : Int := settings.attempt_penalty * max ((attempts_used : Int) - 1) 0
    max (base - penalty) min_zone
  else 0

/-- `ScoringService.score_point_based_dynamic_attempts`. -/
def score_point_based_dynamic_attempts (results : List Result)
    (settings : CompetitionSettings) (top_counts : Nat → Nat)
    (participant_count : Nat) : Agg :=
  { points := some ((results.map (pbda_points_for settings top_counts participant_count)).sum)
    tops := some (results.countP (fun res => res.top) : Int)
    zones := some (results.countP (fun res => !res.top && (res.zone2 || res.zone1)) : Int)
    attempts := some ((results.map total_attempts_for).sum : Int)
    top_attempts := none
    zone_attempts := none }

end ScoringService

namespace ScoringService

/-- The Python tuple type returned by `rank_entries.sort_key`, ordered
lexicographically.  Components that hold `float("inf")` in the IFSC branch
live in `WithTop Int` (`⊤` = infinity); the point-based branch's plain
integer components embed into `WithTop Int` by coercion, which preserves
order and equality.  The last component is the case-folded name. -/
abbrev SortKey :=
  Lex (Int × Lex (Int × Lex (WithTop Int × Lex (WithTop Int × List Char))))

/-- One scoreboard entry dict: `{"participant": participant, **scored}`. -/
structure Entry where
  participant : Participant
  agg : Agg
deriving DecidableEq, Repr

/-- `entry.get(key, 0)` for the numeric keys of an entry dict. -/
def eget (o : Option Int) : Int := o.getD 0

/-- The point-based branch of `rank_entries.sort_key`:
`(-points, -tops, -zones, attempts, name.lower())`. -/
def point_sort_key (entry : Entry) : SortKey :=
  toLex (-(eget entry.agg.points),
    toLex (-(eget entry.agg.tops),
      toLex ((-(eget entry.agg.zones) : Int),
        toLex ((eget entry.agg.attempts : Int),
          entry.participant.name.map Char.toLower))))

/-- The IFSC branch of `rank_entries.sort_key`:
`(-tops, -zones, top_att, zone_att, name.lower())` where the attempt
components are `float("inf")` when the corresponding count is 0. -/
def ifsc_sort_key (entry : Entry) : SortKey :=
  let top_att : WithTop Int :=
    if 0 < eget entry.agg.tops then (eget entry.agg.top_attempts : Int) else ⊤
  let zone_att : WithTop Int :=
    if 0 < eget entry.agg.zones then (eget entry.agg.zone_attempts : Int) else ⊤
  toLex (-(eget entry.agg.tops),
    toLex (-(eget entry.agg.zones),
      toLex (top_att,
        toLex (zone_att, entry.participant.name.map Char.toLower))))

/-- `rank_entries.sort_key`: dispatch on the grading system. -/
def sort_key (grading_system : String) (entry : Entry) : SortKey :=
  if grading_system ∈ POINT_BASED_SYSTEMS then point_sort_key entry
  else ifsc_sort_key entry

/-- The comparison handed to the sort: Python's `entries.sort(key=...)`
orders entries by their sort keys. -/
def entry_le (grading_system : String) (a b : Entry) : Bool :=
  decide (sort_key grading_system a ≤ sort_key grading_system b)

/-- The rank-assignment loop of `rank_entries`: walk the sorted list with
1-based `idx`; an entry opens a new rank equal to `idx` exactly when its
key differs from the previous entry's key (`last_key` starts as `None`). -/
def rank_loop (key : Entry → SortKey) :
    List Entry → Nat → Option SortKey → Nat → List (Entry × Nat)
  | [], _, _, _ => []
  | entry :: rest, idx, last_key, current_rank =>
    let k := key entry
    let r := if some k = last_key then current_rank else idx
    (entry, r) :: rank_loop key rest (idx + 1) (some k) r

/-- `ScoringService.rank_entries`: sort, then assign competition ranks.
The in-place mutation (`entry["rank"] = ...`) is modelled by returning
each entry paired with its rank. -/
def rank_entries (grading_system : String) (entries : List Entry) :
    List (Entry × Nat) :=
  rank_loop (sort_key grading_system)
    (entries.mergeSort (entry_le grading_system)) 1 none 0

/-- Python's `participant_count or len(participants)` (`None` and `0` are
both falsy). -/
def participant_count_or (participant_count : Option Nat) (fallback : Nat) : Nat :=
  match participant_count with
  | some n => if n ≠ 0 then n else fallback
  | none => fallback

/-- `ScoringService.build_scoreboard_entries`: score each participant
(dispatching on grading system, with the guards `settings and top_counts
is not None` of the source), then rank. -/
def build_scoreboard_entries (participants : List Participant)
    (result_map : Nat → List Result) (grading_system : String)
    (settings : Option CompetitionSettings) (top_counts : Option (Nat → Nat))
    (participant_count : Option Nat) : List (Entry × Nat) :=
  let entries := participants.map (fun participant =>
    let res_list := result_map participant.id
    let scored : Agg :=
      if h : grading_system = "point_based_dynamic_attempts" ∧
          settings.isSome ∧ top_counts.isSome then
        score_point_based_dynamic_attempts res_list (settings.get h.2.1)
          (top_counts.get h.2.2)
          (participant_count_or participant_count participants.length)
      else if h : grading_system = "point_based_dynamic" ∧
          settings.isSome ∧ top_counts.isSome then
        score_point_based_dynamic res_list (settings.get h.2.1)
          (top_counts.get h.2.2)
          (participant_count_or participant_count participants.length)
      else if h : grading_system = "point_based" ∧ settings.isSome then
        score_point_based res_list (settings.get h.2)
      else score_ifsc res_list
    Entry.mk participant scored)
  rank_entries grading_system entries

end ScoringService

/-- The spec's hierarchy invariant over a normalized result, with the
`top ⇒ zone` conjuncts guarded by the zones the boulder actually has
(the amendment forced by the `zone_count = 0` behaviour, where zone flags
are always forced false). -/
def ResultService.HierarchyInvariant (zone_count : Nat) (n : SubmittedResult) : Prop :=
  (zone_count = 0 → n.zone1 = false ∧ n.zone2 = false) ∧
  (zone_count = 1 → n.zone2 = false) ∧
  (1 ≤ zone_count → n.top = true → n.zone1 = true) ∧
  (zone_count = 2 → n.top = true → n.zone2 = true) ∧
  (n.zone2 = true → n.zone1 = true) ∧
  (n.zone1 = true → 1 ≤ n.attempts_zone1) ∧
  (n.zone2 = true → 1 ≤ n.attempts_zone2) ∧
  (n.top = true → 1 ≤ n.attempts_top) ∧
  (zone_count = 2 → n.zone2 = true → n.attempts_zone1 ≤ n.attempts_zone2) ∧
  (zone_count = 2 → n.top = true → n.attempts_zone2 ≤ n.attempts_top)

/-- Shape of one result as far as `score_point_based_dynamic`'s points are
concerned: same boulder, same flags, and — for a topped result — the same
flash status (`attempts_used == 1`, with the legacy fallback applied).
Used to state the amended form of the "attempts have no effect" claim. -/
def ScoringService.same_shape (r r' : Result) : Bool :=
  r.boulder_id == r'.boulder_id &&
  r.boulder_zone_count == r'.boulder_zone_count &&
  r.top == r'.top && r.zone1 == r'.zone1 && r.zone2 == r'.zone2 &&
  (!r.top || (decide (ScoringService.top_attempts_used r = 1) ==
    decide (ScoringService.top_attempts_used r' = 1)))

/-- Pointwise `same_shape` on two results lists of equal length. -/
def ScoringService.same_shape_list : List Result → List Result → Bool
  | [], [] => true
  | r :: rs, r' :: rs' =>
    ScoringService.same_shape r r' && ScoringService.same_shape_list rs rs'
  | _, _ => false

/-!
### Theorems
-/
namespace ResultService

/-- Canonical form produced by `_normalize_no_zones`: exactly the facts
needed to show it is a fixed point. -/
def NoZoneCanon (r : SubmittedResult) : Prop :=
  r.zone1 = false ∧ r.zone2 = false ∧
  r.attempts_zone1 = 0 ∧ r.attempts_zone2 = 0 ∧
  0 ≤ r.attempts_top ∧ (r.top = true → 1 ≤ r.attempts_top)

/-- Canonical form produced by `_normalize_single_zone`. -/
def SingleZoneCanon (r : SubmittedResult) : Prop :=
  r.zone2 = false ∧ (r.top = true → r.zone1 = true) ∧
  r.attempts_zone2 = 0 ∧
  0 ≤ r.attempts_zone1 ∧ 0 ≤ r.attempts_top ∧
  (r.zone1 = true → 1 ≤ r.attempts_zone1) ∧
  (r.top = true → 1 ≤ r.attempts_top) ∧
  (r.top = true → r.attempts_zone1 ≤ r.attempts_top)

/-- Canonical form produced by `_normalize_two_zones`. -/
def TwoZoneCanon (r : SubmittedResult) : Prop :=
  (r.top = true → r.zone2 = true) ∧ (r.zone2 = true → r.zone1 = true) ∧
  0 ≤ r.attempts_zone1 ∧ 0 ≤ r.attempts_zone2 ∧ 0 ≤ r.attempts_top ∧
  (r.zone1 = true → 1 ≤ r.attempts_zone1) ∧
  (r.zone2 = true → 1 ≤ r.attempts_zone2) ∧
  (r.top = true → 1 ≤ r.attempts_top) ∧
  (r.zone2 = true → r.attempts_zone1 ≤ r.attempts_zone2) ∧
  (r.top = true → r.attempts_zone2 ≤ r.attempts_top)

lemma noZones_canon (s : SubmittedResult) : NoZoneCanon (_normalize_no_zones s) := by
  obtain ⟨z1, z2, t, a1, a2, at_, v⟩ := s
  cases t <;>
    simp only [_normalize_no_zones, NoZoneCanon] <;>
    split_ifs <;> simp_all <;> omega

lemma noZones_fixed (r : SubmittedResult) (h : NoZoneCanon r) :
    _normalize_no_zones r = r := by
  obtain ⟨z1, z2, t, a1, a2, at_, v⟩ := r
  obtain ⟨h1, h2, h3, h4, h5, h6⟩ := h
  simp only at h1 h2 h3 h4 h5 h6
  subst h1 h2 h3 h4
  cases t <;>
    simp only [_normalize_no_zones, SubmittedResult.mk.injEq] <;>
    split_ifs <;> simp_all <;> omega

lemma single_zone_flags_spec (s : SubmittedResult) :
    ((_single_zone_flags s).top = true → (_single_zone_flags s).zone1 = true) ∧
    (_single_zone_flags s).zone2 = s.zone2 ∧
    (_single_zone_flags s).attempts_zone1 = s.attempts_zone1 ∧
    (_single_zone_flags s).attempts_zone2 = s.attempts_zone2 ∧
    (_single_zone_flags s).attempts_top = s.attempts_top ∧
    (_single_zone_flags s).version = s.version := by
  obtain ⟨z1, z2, t, a1, a2, at_, v⟩ := s
  cases t <;> cases z1 <;> simp [_single_zone_flags]

lemma single_zone_flags_id (r : SubmittedResult)
    (h : r.top = true → r.zone1 = true) : _single_zone_flags r = r := by
  obtain ⟨z1, z2, t, a1, a2, at_, v⟩ := r
  cases t <;> cases z1 <;> simp_all [_single_zone_flags]

lemma single_zone_clamp_spec (s : SubmittedResult) :
    (_single_zone_clamp s).zone1 = s.zone1 ∧ (_single_zone_clamp s).zone2 = s.zone2 ∧
    (_single_zone_clamp s).top = s.top ∧
    (_single_zone_clamp s).attempts_zone2 = s.attempts_zone2 ∧
    (_single_zone_clamp s).version = s.version ∧
    0 ≤ (_single_zone_clamp s).attempts_zone1 ∧
    0 ≤ (_single_zone_clamp s).attempts_top ∧
    (s.zone1 = true → 1 ≤ (_single_zone_clamp s).attempts_zone1) ∧
    (s.top = true → 1 ≤ (_single_zone_clamp s).attempts_top) := by
  obtain ⟨z1, z2, t, a1, a2, at_, v⟩ := s
  cases t <;> cases z1 <;> simp [_single_zone_clamp] <;> split_ifs <;> omega

lemma single_zone_clamp_id (r : SubmittedResult)
    (h1 : 0 ≤ r.attempts_zone1) (h2 : 0 ≤ r.attempts_top)
    (h3 : r.zone1 = true → 1 ≤ r.attempts_zone1)
    (h4 : r.top = true → 1 ≤ r.attempts_top) : _single_zone_clamp r = r := by
  obtain ⟨z1, z2, t, a1, a2, at_, v⟩ := r
  simp only at h1 h2 h3 h4
  cases t <;> cases z1 <;>
    simp_all [_single_zone_clamp, SubmittedResult.mk.injEq] <;> split_ifs <;> omega

lemma single_zone_propagate_id (r : SubmittedResult)
    (htop : r.top = true → r.zone1 = true)
    (h : r.zone1 = true → 1 ≤ r.attempts_zone1) : _single_zone_propagate r = r := by
  obtain ⟨z1, z2, t, a1, a2, at_, v⟩ := r
  simp only at htop h
  cases t <;> cases z1 <;>
    simp_all [_single_zone_propagate, SubmittedResult.mk.injEq] <;>
      (try split_ifs) <;> omega

lemma single_zone_raise_spec (s : SubmittedResult)
    (h0 : 0 ≤ s.attempts_zone1) (h1 : 0 ≤ s.attempts_top)
    (h2 : s.top = true → 1 ≤ s.attempts_top) :
    (_single_zone_raise s).zone1 = s.zone1 ∧ (_single_zone_raise s).zone2 = s.zone2 ∧
    (_single_zone_raise s).top = s.top ∧
    (_single_zone_raise s).attempts_zone1 = s.attempts_zone1 ∧
    (_single_zone_raise s).attempts_zone2 = s.attempts_zone2 ∧
    (_single_zone_raise s).version = s.version ∧
    0 ≤ (_single_zone_raise s).attempts_top ∧
    (s.top = true → 1 ≤ (_single_zone_raise s).attempts_top) ∧
    (s.top = true → s.attempts_zone1 ≤ (_single_zone_raise s).attempts_top) := by
  obtain ⟨z1, z2, t, a1, a2, at_, v⟩ := s
  simp only at h0 h1 h2
  cases t <;> simp_all [_single_zone_raise] <;> split_ifs <;> omega

lemma single_zone_raise_id (r : SubmittedResult)
    (h : r.top = true → r.attempts_zone1 ≤ r.attempts_top) :
    _single_zone_raise r = r := by
  obtain ⟨z1, z2, t, a1, a2, at_, v⟩ := r
  simp only at h
  cases t <;> simp_all [_single_zone_raise, SubmittedResult.mk.injEq] <;>
    split_ifs <;> omega

lemma singleZone_canon (s : SubmittedResult) :
    SingleZoneCanon (_normalize_single_zone s) := by
  obtain ⟨hf1, hf2, hf3, hf4, hf5, hf6⟩ := single_zone_flags_spec s
  obtain ⟨hc1, hc2, hc3, hc4, hc5, hc6, hc7, hc8, hc9⟩ :=
    single_zone_clamp_spec (_single_zone_flags s)
  have hp : _single_zone_propagate (_single_zone_clamp (_single_zone_flags s)) =
      _single_zone_clamp (_single_zone_flags s) := by
    apply single_zone_propagate_id
    · rw [hc3, hc1]; exact hf1
    · rw [hc1]; exact hc8
  obtain ⟨hr1, hr2, hr3, hr4, hr5, hr6, hr7, hr8, hr9⟩ :=
    single_zone_raise_spec (_single_zone_clamp (_single_zone_flags s)) hc6 hc7 (by
      rw [hc3]; exact fun ht => hc9 ht)
  refine ⟨rfl, ?_, rfl, ?_, ?_, ?_, ?_, ?_⟩ <;>
    simp only [_normalize_single_zone, hp]
  · intro ht
    rw [hr3, hc3] at ht
    rw [hr1, hc1]
    exact hf1 ht
  · rw [hr4]; exact hc6
  · exact hr7
  · intro hz
    rw [hr1, hc1] at hz
    rw [hr4]
    exact hc8 hz
  · intro ht
    rw [hr3, hc3] at ht
    exact hr8 (hc3 ▸ ht)
  · intro ht
    rw [hr3, hc3] at ht
    rw [hr4]
    exact hr9 (hc3 ▸ ht)

lemma singleZone_fixed (r : SubmittedResult) (h : SingleZoneCanon r) :
    _normalize_single_zone r = r := by
  obtain ⟨h1, h2, h3, h4, h5, h6, h7, h8⟩ := h
  have e1 : _single_zone_flags r = r := single_zone_flags_id r h2
  have e2 : _single_zone_clamp r = r := single_zone_clamp_id r h4 h5 h6 h7
  have e3 : _single_zone_propagate r = r := single_zone_propagate_id r h2 h6
  have e4 : _single_zone_raise r = r := single_zone_raise_id r h8
  simp only [_normalize_single_zone, e1, e2, e3, e4]
  obtain ⟨z1, z2, t, a1, a2, at_, v⟩ := r
  simp only at h1 h3
  simp [h1, h3]

lemma two_zones_flags_spec (s : SubmittedResult) :
    ((_two_zones_flags s).top = true → (_two_zones_flags s).zone2 = true) ∧
    ((_two_zones_flags s).zone2 = true → (_two_zones_flags s).zone1 = true) ∧
    (_two_zones_flags s).attempts_zone1 = s.attempts_zone1 ∧
    (_two_zones_flags s).attempts_zone2 = s.attempts_zone2 ∧
    (_two_zones_flags s).attempts_top = s.attempts_top ∧
    (_two_zones_flags s).version = s.version := by
  obtain ⟨z1, z2, t, a1, a2, at_, v⟩ := s
  cases t <;> cases z1 <;> cases z2 <;> simp [_two_zones_flags]

lemma two_zones_flags_id (r : SubmittedResult)
    (h1 : r.top = true → r.zone2 = true) (h2 : r.zone2 = true → r.zone1 = true) :
    _two_zones_flags r = r := by
  obtain ⟨z1, z2, t, a1, a2, at_, v⟩ := r
  cases t <;> cases z1 <;> cases z2 <;> simp_all [_two_zones_flags]

lemma two_zones_clamp_spec (s : SubmittedResult) :
    (_two_zones_clamp s).zone1 = s.zone1 ∧ (_two_zones_clamp s).zone2 = s.zone2 ∧
    (_two_zones_clamp s).top = s.top ∧ (_two_zones_clamp s).version = s.version ∧
    0 ≤ (_two_zones_clamp s).attempts_zone1 ∧
    0 ≤ (_two_zones_clamp s).attempts_zone2 ∧
    0 ≤ (_two_zones_clamp s).attempts_top ∧
    (s.zone1 = true → 1 ≤ (_two_zones_clamp s).attempts_zone1) ∧
    (s.zone2 = true → 1 ≤ (_two_zones_clamp s).attempts_zone2) ∧
    (s.top = true → 1 ≤ (_two_zones_clamp s).attempts_top) := by
  obtain ⟨z1, z2, t, a1, a2, at_, v⟩ := s
  cases t <;> cases z1 <;> cases z2 <;>
    simp [_two_zones_clamp] <;> split_ifs <;> omega

lemma two_zones_clamp_id (r : SubmittedResult)
    (h1 : 0 ≤ r.attempts_zone1) (h2 : 0 ≤ r.attempts_zone2)
    (h3 : 0 ≤ r.attempts_top)
    (h4 : r.zone1 = true → 1 ≤ r.attempts_zone1)
    (h5 : r.zone2 = true → 1 ≤ r.attempts_zone2)
    (h6 : r.top = true → 1 ≤ r.attempts_top) : _two_zones_clamp r = r := by
  obtain ⟨z1, z2, t, a1, a2, at_, v⟩ := r
  simp only at h1 h2 h3 h4 h5 h6
  cases t <;> cases z1 <;> cases z2 <;>
    simp_all [_two_zones_clamp, SubmittedResult.mk.injEq] <;> split_ifs <;> omega

lemma two_zones_propagate_id (r : SubmittedResult)
    (h1 : r.top = true → r.zone2 = true) (h2 : r.zone2 = true → r.zone1 = true)
    (h3 : r.zone1 = true → 1 ≤ r.attempts_zone1)
    (h4 : r.zone2 = true → 1 ≤ r.attempts_zone2) : _two_zones_propagate r = r := by
  obtain ⟨z1, z2, t, a1, a2, at_, v⟩ := r
  simp only at h1 h2 h3 h4
  cases t <;> cases z1 <;> cases z2 <;>
    simp_all [_two_zones_propagate, SubmittedResult.mk.injEq] <;>
      (try split_ifs) <;> omega

lemma two_zones_raise_spec (s : SubmittedResult)
    (g1 : s.top = true → s.zone2 = true) (g2 : s.zone2 = true → s.zone1 = true)
    (h1 : 0 ≤ s.attempts_zone1) (h2 : 0 ≤ s.attempts_zone2) (h3 : 0 ≤ s.attempts_top)
    (h4 : s.zone1 = true → 1 ≤ s.attempts_zone1)
    (h5 : s.zone2 = true → 1 ≤ s.attempts_zone2)
    (h6 : s.top = true → 1 ≤ s.attempts_top) :
    (_two_zones_raise s).zone1 = s.zone1 ∧ (_two_zones_raise s).zone2 = s.zone2 ∧
    (_two_zones_raise s).top = s.top ∧
    (_two_zones_raise s).attempts_zone1 = s.attempts_zone1 ∧
    (_two_zones_raise s).version = s.version ∧
    0 ≤ (_two_zones_raise s).attempts_zone2 ∧
    0 ≤ (_two_zones_raise s).attempts_top ∧
    (s.zone2 = true → 1 ≤ (_two_zones_raise s).attempts_zone2) ∧
    (s.top = true → 1 ≤ (_two_zones_raise s).attempts_top) ∧
    (s.zone2 = true →
      s.attempts_zone1 ≤ (_two_zones_raise s).attempts_zone2) ∧
    (s.top = true →
      (_two_zones_raise s).attempts_zone2 ≤ (_two_zones_raise s).attempts_top) := by
  obtain ⟨z1, z2, t, a1, a2, at_, v⟩ := s
  simp only at g1 g2 h1 h2 h3 h4 h5 h6
  cases t <;> cases z1 <;> cases z2 <;>
    simp_all [_two_zones_raise] <;> split_ifs <;> omega

lemma two_zones_raise_id (r : SubmittedResult)
    (h1 : r.zone2 = true → r.attempts_zone1 ≤ r.attempts_zone2)
    (h2 : r.top = true → r.attempts_zone2 ≤ r.attempts_top)
    (h3 : r.top = true → r.zone2 = true)
    (h4 : r.zone2 = true → r.attempts_zone1 ≤ r.attempts_zone2) :
    _two_zones_raise r = r := by
  obtain ⟨z1, z2, t, a1, a2, at_, v⟩ := r
  simp only at h1 h2 h3 h4
  cases t <;> cases z1 <;> cases z2 <;>
    simp_all [_two_zones_raise, SubmittedResult.mk.injEq] <;> split_ifs <;> omega

lemma twoZones_canon (s : SubmittedResult) :
    TwoZoneCanon (_normalize_two_zones s) := by
  obtain ⟨hf1, hf2, hf3, hf4, hf5, hf6⟩ := two_zones_flags_spec s
  obtain ⟨hc1, hc2, hc3, hc4, hc5, hc6, hc7, hc8, hc9, hc10⟩ :=
    two_zones_clamp_spec (_two_zones_flags s)
  set f := _two_zones_flags s with hf
  set c := _two_zones_clamp f with hc
  have hp : _two_zones_propagate c = c := by
    apply two_zones_propagate_id
    · rw [hc3, hc2]; exact hf1
    · rw [hc2, hc1]; exact hf2
    · rw [hc1]; exact hc8
    · rw [hc2]; exact hc9
  obtain ⟨hr1, hr2, hr3, hr4, hr5, hr6, hr7, hr8, hr9, hr10, hr11⟩ :=
    two_zones_raise_spec c (by rw [hc3, hc2]; exact hf1)
      (by rw [hc2, hc1]; exact hf2) hc5 hc6 hc7
      (by rw [hc1]; exact hc8) (by rw [hc2]; exact hc9) (by rw [hc3]; exact hc10)
  have hn : _normalize_two_zones s = _two_zones_raise c := by
    simp only [_normalize_two_zones, ← hf, ← hc, hp]
  rw [TwoZoneCanon, hn]
  refine ⟨?_, ?_, ?_, ?_, ?_, ?_, ?_, ?_, ?_, ?_⟩
  · intro ht; rw [hr3, hc3] at ht; rw [hr2, hc2]; exact hf1 ht
  · intro hz; rw [hr2, hc2] at hz; rw [hr1, hc1]; exact hf2 hz
  · rw [hr4]; exact hc5
  · exact hr6
  · exact hr7
  · intro hz; rw [hr1, hc1] at hz; rw [hr4]; exact hc8 hz
  · intro hz; rw [hr2, hc2] at hz; exact hr8 (hc2 ▸ hz)
  · intro ht; rw [hr3, hc3] at ht; exact hr9 (hc3 ▸ ht)
  · intro hz
    rw [hr2, hc2] at hz
    rw [hr4]
    exact hr10 (hc2 ▸ hz)
  · intro ht
    rw [hr3, hc3] at ht
    exact hr11 (hc3 ▸ ht)

lemma twoZones_fixed (r : SubmittedResult) (h : TwoZoneCanon r) :
    _normalize_two_zones r = r := by
  obtain ⟨h1, h2, h3, h4, h5, h6, h7, h8, h9, h10⟩ := h
  have e1 : _two_zones_flags r = r := two_zones_flags_id r h1 h2
  have e2 : _two_zones_clamp r = r := two_zones_clamp_id r h3 h4 h5 h6 h7 h8
  have e3 : _two_zones_propagate r = r := two_zones_propagate_id r h1 h2 h6 h7
  have e4 : _two_zones_raise r = r := two_zones_raise_id r h9 h10 h1 h9
  simp only [_normalize_two_zones, e1, e2, e3, e4]

end ResultService

namespace ResultService

example :
    normalize_submission ⟨1, 2⟩
      ⟨false, false, true, 0, 0, 5, none⟩ =
      ⟨true, true, true, 1, 1, 5, none⟩ := by decide

example :
    normalize_submission ⟨1, 1⟩
      ⟨false, false, true, -3, 0, 4, some 2⟩ =
      ⟨true, false, true, 1, 0, 4, some 2⟩ := by decide

end ResultService

/-- **C1** (code bug): evaluating the embedded `_normalize_two_zones` on
the spec scenario (2-zone boulder, `top=true, attempts_top=5`, everything
else zero/false) yields `zone1=zone2=true` but
`attempts_zone1 = attempts_zone2 = 1`, not the claimed propagation of 5:
the clamp block (result_service.py lines 159-164) runs before the
propagation block (lines 166-171), so `attempts_z2 == 0` can never hold
for an achieved zone and the propagation never fires. -/
theorem two_zone_attempt_propagation_eval :
    ResultService.normalize_submission ⟨1, 2⟩ ⟨false, false, true, 0, 0, 5, none⟩ =
      ⟨true, true, true, 1, 1, 5, none⟩ := by decide

/-- **C2** counterexample: on a `zone_count = 0` boulder the normalizer
returns `top = true` with `zone1 = false`, refuting the claim's
unconditional `top ⇒ zone1` conjunct. -/
theorem normalize_top_without_zone1_counterexample :
    (ResultService.normalize_submission ⟨1, 0⟩ ⟨false, false, true, 0, 0, 5, none⟩).top
        = true ∧
    (ResultService.normalize_submission ⟨1, 0⟩ ⟨false, false, true, 0, 0, 5, none⟩).zone1
        = false := by decide

/-- **C2** (amended): for every boulder and every raw submission the
normalized result satisfies the hierarchy invariant, with `top ⇒ zone1`
holding when the boulder has at least one zone and `top ⇒ zone2` when it
has two (unsupported zone flags are forced false, each achieved flag has
≥ 1 attempt, and on a two-zone boulder
`attempts_top ≥ attempts_zone2 ≥ attempts_zone1` whenever the respective
flags are set). -/
theorem normalize_submission_hierarchy_invariant (b : Boulder) (s : SubmittedResult) :
    ResultService.HierarchyInvariant b.zone_count
      (ResultService.normalize_submission b s) := by
  obtain ⟨bid, zc⟩ := b
  rcases zc with _ | zc1
  · obtain ⟨c1, c2, c3, c4, c5, c6⟩ := ResultService.noZones_canon s
    have hn : ResultService.normalize_submission ⟨bid, 0⟩ s =
        ResultService._normalize_no_zones s := by
      simp [ResultService.normalize_submission]
    rw [hn, ResultService.HierarchyInvariant]
    refine ⟨?_, ?_, ?_, ?_, ?_, ?_, ?_, ?_, ?_, ?_⟩ <;> intros <;> simp_all <;> omega
  · rcases zc1 with _ | zc2
    · obtain ⟨c1, c2, c3, c4, c5, c6, c7, c8⟩ := ResultService.singleZone_canon s
      have hn : ResultService.normalize_submission ⟨bid, 1⟩ s =
          ResultService._normalize_single_zone s := by
        simp [ResultService.normalize_submission]
      rw [hn, ResultService.HierarchyInvariant]
      refine ⟨?_, ?_, ?_, ?_, ?_, ?_, ?_, ?_, ?_, ?_⟩ <;> intros <;> simp_all <;> omega
    · obtain ⟨c1, c2, c3, c4, c5, c6, c7, c8, c9, c10⟩ := ResultService.twoZones_canon s
      have hn : ResultService.normalize_submission ⟨bid, zc2 + 2⟩ s =
          ResultService._normalize_two_zones s := by
        simp [ResultService.normalize_submission]
      rw [hn, ResultService.HierarchyInvariant]
      refine ⟨?_, ?_, ?_, ?_, ?_, ?_, ?_, ?_, ?_, ?_⟩ <;> intros <;> simp_all <;> omega

/-- **C2** witness: the amended invariant applied to a concrete two-zone
submission with `zone2` set, discharging the hypotheses of the achieved
conjuncts. -/
theorem normalize_submission_hierarchy_invariant_witness :
    1 ≤ (ResultService.normalize_submission ⟨7, 2⟩
        ⟨false, true, false, 0, 0, 0, none⟩).attempts_zone2 ∧
    (ResultService.normalize_submission ⟨7, 2⟩
        ⟨false, true, false, 0, 0, 0, none⟩).attempts_zone1 ≤
      (ResultService.normalize_submission ⟨7, 2⟩
        ⟨false, true, false, 0, 0, 0, none⟩).attempts_zone2 := by
  have h := normalize_submission_hierarchy_invariant ⟨7, 2⟩
    ⟨false, true, false, 0, 0, 0, none⟩
  rw [ResultService.HierarchyInvariant] at h
  obtain ⟨-, -, -, -, -, -, h7, -, h9, -⟩ := h
  exact ⟨h7 (by decide), h9 rfl (by decide)⟩

/-- **C3**: `normalize_submission` is idempotent: renormalizing a
normalized submission (same boulder) is the identity, on every field. -/
theorem normalize_submission_idempotent (b : Boulder) (s : SubmittedResult) :
    ResultService.normalize_submission b (ResultService.normalize_submission b s) =
      ResultService.normalize_submission b s := by
  unfold ResultService.normalize_submission
  split_ifs
  · exact ResultService.noZones_fixed _ (ResultService.noZones_canon s)
  · exact ResultService.singleZone_fixed _ (ResultService.singleZone_canon s)
  · exact ResultService.twoZones_fixed _ (ResultService.twoZones_canon s)

lemma normalize_submission_version (b : Boulder) (s : SubmittedResult) :
    (ResultService.normalize_submission b s).version = s.version := by
  unfold ResultService.normalize_submission
  split_ifs
  · rfl
  · rfl
  · rfl

/-- **C5**: the dynamic tier lookup uses strictly-greater-than boundaries:
90.0 selects the 90%-tier, 90.001 the 100%-tier, and anything ≤ 10
(including 0) the lowest tier. -/
theorem dynamic_top_points_tier_boundaries (settings : CompetitionSettings)
    (p : ℚ) (hp : p ≤ 10) :
    ScoringService.get_dynamic_top_points settings 90 = settings.top_points_90 ∧
    ScoringService.get_dynamic_top_points settings (90001 / 1000) =
      settings.top_points_100 ∧
    ScoringService.get_dynamic_top_points settings p = settings.top_points_10 := by
  refine ⟨?_, ?_, ?_⟩
  · unfold ScoringService.get_dynamic_top_points
    rw [if_neg (by norm_num), if_pos (by norm_num)]
  · unfold ScoringService.get_dynamic_top_points
    rw [if_pos (by norm_num)]
  · unfold ScoringService.get_dynamic_top_points
    split_ifs <;> first | rfl | linarith

/-- **C5** witness: the tier boundaries evaluated on concrete settings with
pairwise distinct tier values, with the `p ≤ 10` hypothesis discharged at
`p = 0`. -/
theorem dynamic_top_points_tier_boundaries_witness :
    (0 : ℚ) ≤ 10 ∧
    ScoringService.get_dynamic_top_points
      ⟨"ifsc", 25, 30, 0, 100, 90, 80, 70, 60, 50, 42, 44, 46, 55, 10, 10, 10, 0, 0, 0, 1⟩
      0 = 55 ∧
    ScoringService.get_dynamic_top_points
      ⟨"ifsc", 25, 30, 0, 100, 90, 80, 70, 60, 50, 42, 44, 46, 55, 10, 10, 10, 0, 0, 0, 1⟩
      90 = 90 ∧
    ScoringService.get_dynamic_top_points
      ⟨"ifsc", 25, 30, 0, 100, 90, 80, 70, 60, 50, 42, 44, 46, 55, 10, 10, 10, 0, 0, 0, 1⟩
      (90001 / 1000) = 100 := by
  have h := dynamic_top_points_tier_boundaries
    ⟨"ifsc", 25, 30, 0, 100, 90, 80, 70, 60, 50, 42, 44, 46, 55, 10, 10, 10, 0, 0, 0, 1⟩
    0 (by norm_num)
  exact ⟨by norm_num, h.2.2, h.1, h.2.1⟩

/-- **C8**: if a stored result exists and the submission carries a non-null
version different from the stored one, `submit_one` rejects the write: the
stored row is returned unchanged and the payload is built from the stored
state, including its version. -/
theorem version_conflict_rejects_write (b : Boulder) (cur : Result)
    (raw : SubmittedResult) (now : Nat) (w : Int)
    (hv : raw.version = some w) (hne : w ≠ cur.version) :
    ResultService.submit_one b (some cur) raw now =
      (cur, ResultService.result_to_payload cur) ∧
    (ResultService.result_to_payload cur).version = cur.version := by
  refine ⟨?_, rfl⟩
  unfold ResultService.submit_one
  have h2 : (ResultService.normalize_submission b raw).version = some w := by
    rw [normalize_submission_version, hv]
  simp only [h2]
  rw [if_pos (Ne.symm hne)]

/-- **C8** witness: the spec scenario — stored `version=3`, submission
`version=2` — evaluated on concrete rows. -/
theorem version_conflict_rejects_write_witness :
    ((⟨true, true, true, 1, 1, 1, some 2⟩ : SubmittedResult).version = some 2) ∧
    ((2 : Int) ≠ 3) ∧
    ResultService.submit_one ⟨1, 2⟩
        (some ⟨1, 2, false, true, false, 2, 0, 2, 0, 3, 7⟩)
        ⟨true, true, true, 1, 1, 1, some 2⟩ 9 =
      (⟨1, 2, false, true, false, 2, 0, 2, 0, 3, 7⟩,
       ResultService.result_to_payload ⟨1, 2, false, true, false, 2, 0, 2, 0, 3, 7⟩) := by
  have h := version_conflict_rejects_write ⟨1, 2⟩
    ⟨1, 2, false, true, false, 2, 0, 2, 0, 3, 7⟩
    ⟨true, true, true, 1, 1, 1, some 2⟩ 9 2 rfl (by decide)
  exact ⟨rfl, by decide, h.1⟩

/-- **C9** counterexample: a participant with no age-group assignment — a
result is written (a fresh row is created from the submission and its
payload returned), yet the purge list is empty, so in particular neither
`scoreboard_all_ifsc` nor `scoreboard_all_point_based` is deleted. -/
theorem no_age_group_no_purge_counterexample :
    (ResultService.handle_submission ⟨1, ['a'], none⟩
        [(⟨5, 0⟩, none, ⟨false, false, true, 0, 0, 1, none⟩)] 0).1 =
      [(5, ⟨true, false, false, 1, 0, 0, 1, 0⟩)] ∧
    (ResultService.handle_submission ⟨1, ['a'], none⟩
        [(⟨5, 0⟩, none, ⟨false, false, true, 0, 0, 1, none⟩)] 0).2 = [] := by
  decide

/-- **C9** (amended): `handle_submission` purges the scoreboard cache only
for a participant with an age-group assignment — then exactly the
age-group-scoped key and the "all" key for both grading systems — and
purges nothing for a participant without one. -/
theorem scoreboard_purge_requires_age_group (p : Participant)
    (items : List (Boulder × Option Result × SubmittedResult)) (now : Nat) :
    (∀ g, p.age_group_id = some g →
      (ResultService.handle_submission p items now).2 =
        ["scoreboard_" ++ toString g ++ "_" ++ "ifsc", "scoreboard_all_ifsc",
         "scoreboard_" ++ toString g ++ "_" ++ "point_based",
         "scoreboard_all_point_based"]) ∧
    (p.age_group_id = none →
      (ResultService.handle_submission p items now).2 = []) := by
  constructor
  · intro g hg
    simp [ResultService.handle_submission,
      ResultService.scoreboard_invalidation_keys, hg]
  · intro hg
    simp [ResultService.handle_submission,
      ResultService.scoreboard_invalidation_keys, hg]

/-- **C9** witness: the purge list for a participant in age group 4. -/
theorem scoreboard_purge_requires_age_group_witness :
    (ResultService.handle_submission ⟨1, ['a'], some 4⟩ [] 0).2 =
      ["scoreboard_4_ifsc", "scoreboard_all_ifsc",
       "scoreboard_4_point_based", "scoreboard_all_point_based"] := by
  have h := (scoreboard_purge_requires_age_group ⟨1, ['a'], some 4⟩ [] 0).1 4 rfl
  rw [h]
  rfl

lemma pbd_points_for_congr (st : CompetitionSettings) (tcs : Nat → Nat) (pc : Nat)
    (r r' : Result) (h : ScoringService.same_shape r r' = true) :
    ScoringService.pbd_points_for st tcs pc r =
      ScoringService.pbd_points_for st tcs pc r' := by
  obtain ⟨bid, bzc, t, z1, z2, a, at_, a1, a2, v, u⟩ := r
  obtain ⟨bid2, bzc2, t2, z12, z22, a2x, at2, a12, a22, v2, u2⟩ := r'
  simp only [ScoringService.same_shape, Bool.and_eq_true, beq_iff_eq,
    Bool.or_eq_true, Bool.not_eq_true', decide_eq_decide] at h
  obtain ⟨⟨⟨⟨⟨hb, hz⟩, ht⟩, h1⟩, h2⟩, hf⟩ := h
  subst hb hz ht h1 h2
  cases t with
  | false => rfl
  | true =>
    rcases hf with hbad | hf2
    · exact absurd hbad (by decide)
    · simp only [ScoringService.pbd_points_for]
      rw [if_congr hf2 rfl rfl]

lemma pbd_points_map_congr (st : CompetitionSettings) (tcs : Nat → Nat) (pc : Nat) :
    ∀ (rs rs' : List Result), ScoringService.same_shape_list rs rs' = true →
    (rs.map (ScoringService.pbd_points_for st tcs pc)).sum =
      (rs'.map (ScoringService.pbd_points_for st tcs pc)).sum
  | [], [], _ => rfl
  | r :: rs, r' :: rs', h => by
    simp only [ScoringService.same_shape_list, Bool.and_eq_true] at h
    simp only [List.map_cons, List.sum_cons,
      pbd_points_for_congr st tcs pc r r' h.1,
      pbd_points_map_congr st tcs pc rs rs' h.2]
  | [], _ :: _, h => by simp [ScoringService.same_shape_list] at h
  | _ :: _, [], h => by simp [ScoringService.same_shape_list] at h

/-- **C6** counterexample: in `score_point_based_dynamic`, changing only
`attempts_top` (1 → 2, with `top=true` throughout) flips the flash test
and changes the points from `flash_points = 30` to the lowest-tier value
55, so attempts do affect the points. -/
theorem dynamic_points_attempts_flash_counterexample :
    (ScoringService.score_point_based_dynamic
        [⟨1, 0, true, false, false, 0, 1, 0, 0, 0, 0⟩]
        ⟨"ifsc", 25, 30, 0, 100, 90, 80, 70, 60, 50, 42, 44, 46, 55, 10, 10, 10, 0, 0, 0, 1⟩
        (fun _ => 0) 0).points = some 30 ∧
    (ScoringService.score_point_based_dynamic
        [⟨1, 0, true, false, false, 0, 2, 0, 0, 0, 0⟩]
        ⟨"ifsc", 25, 30, 0, 100, 90, 80, 70, 60, 50, 42, 44, 46, 55, 10, 10, 10, 0, 0, 0, 1⟩
        (fun _ => 0) 0).points = some 55 := by
  constructor <;>
    simp [ScoringService.score_point_based_dynamic, ScoringService.pbd_points_for,
      ScoringService.top_attempts_used, ScoringService.get_dynamic_top_points,
      ScoringService.top_percentage_of] <;>
    norm_num

/-- **C6** (amended): in `score_point_based_dynamic` the attempt fields can
influence the points total only through the flash test: for fixed
settings, tops tally and participant count, two results lists that agree
on boulders, achievement flags and each topped result's flash status
(`(attempts_top or attempts) == 1`) yield the same `points`, whatever
their attempt counts. -/
theorem dynamic_points_ignore_attempts_up_to_flash
    (settings : CompetitionSettings) (top_counts : Nat → Nat)
    (participant_count : Nat) (rs rs' : List Result)
    (h : ScoringService.same_shape_list rs rs' = true) :
    (ScoringService.score_point_based_dynamic rs settings top_counts
        participant_count).points =
      (ScoringService.score_point_based_dynamic rs' settings top_counts
        participant_count).points := by
  simp only [ScoringService.score_point_based_dynamic]
  exact congrArg some (pbd_points_map_congr settings top_counts participant_count rs rs' h)

/-- **C6** witness: two topped results differing only in `attempts_top`
(5 vs 7, both non-flash) score the same points. -/
theorem dynamic_points_ignore_attempts_up_to_flash_witness :
    ScoringService.same_shape_list
        [⟨1, 0, true, false, false, 0, 5, 0, 0, 0, 0⟩]
        [⟨1, 0, true, false, false, 0, 7, 0, 0, 0, 0⟩] = true ∧
    (ScoringService.score_point_based_dynamic
        [⟨1, 0, true, false, false, 0, 5, 0, 0, 0, 0⟩]
        ⟨"ifsc", 25, 30, 0, 100, 90, 80, 70, 60, 50, 42, 44, 46, 55, 10, 10, 10, 0, 0, 0, 1⟩
        (fun _ => 0) 4).points =
      (ScoringService.score_point_based_dynamic
        [⟨1, 0, true, false, false, 0, 7, 0, 0, 0, 0⟩]
        ⟨"ifsc", 25, 30, 0, 100, 90, 80, 70, 60, 50, 42, 44, 46, 55, 10, 10, 10, 0, 0, 0, 1⟩
        (fun _ => 0) 4).points := by
  refine ⟨by decide, ?_⟩
  exact dynamic_points_ignore_attempts_up_to_flash
    ⟨"ifsc", 25, 30, 0, 100, 90, 80, 70, 60, 50, 42, 44, 46, 55, 10, 10, 10, 0, 0, 0, 1⟩
    (fun _ => 0) 4 _ _ (by decide)

/-- **C7** counterexample: in `score_point_based`, an achieved `zone2` with
`attempts_zone2 = 0` does *not* fall back to the legacy `attempts` field
(Python precedence: `attempts_zone2 if zone2 else attempts_zone1 or
attempts`): substituting the legacy value into the split field changes
both points and the attempts total, so the legacy value was not "used in
its place". -/
theorem zone2_no_legacy_fallback_counterexample :
    ScoringService.score_point_based
        [⟨1, 2, false, true, true, 7, 0, 1, 0, 0, 0⟩]
        ⟨"ifsc", 25, 30, 0, 100, 90, 80, 70, 60, 50, 42, 44, 46, 55, 10, 10, 10, 0, 0, 0, 1⟩ ≠
      ScoringService.score_point_based
        [⟨1, 2, false, true, true, 7, 0, 1, 7, 0, 0⟩]
        ⟨"ifsc", 25, 30, 0, 100, 90, 80, 70, 60, 50, 42, 44, 46, 55, 10, 10, 10, 0, 0, 0, 1⟩ := by
  decide

/-- **C7** (amended): where the legacy fallback actually applies.  In all
four scoring functions a zero `attempts_top` falls back to the legacy
`attempts` value (replacing it by that value leaves the aggregate
unchanged), and likewise a zero `attempts_zone1`; a zero `attempts_zone2`
falls back in `score_ifsc`; but in the three point-based scorers a result
with `zone2` achieved (and no top) uses `attempts_zone2` as-is — the
legacy field is ignored entirely there, with no fallback. -/
theorem legacy_attempts_fallback_characterization
    (settings : CompetitionSettings) (top_counts : Nat → Nat) (pc : Nat)
    (r : Result) :
    (r.attempts_top = 0 →
      ScoringService.score_ifsc [r] =
        ScoringService.score_ifsc [{r with attempts_top := r.attempts}] ∧
      ScoringService.score_point_based [r] settings =
        ScoringService.score_point_based [{r with attempts_top := r.attempts}] settings ∧
      ScoringService.score_point_based_dynamic [r] settings top_counts pc =
        ScoringService.score_point_based_dynamic
          [{r with attempts_top := r.attempts}] settings top_counts pc ∧
      ScoringService.score_point_based_dynamic_attempts [r] settings top_counts pc =
        ScoringService.score_point_based_dynamic_attempts
          [{r with attempts_top := r.attempts}] settings top_counts pc) ∧
    (r.attempts_zone1 = 0 →
      ScoringService.score_ifsc [r] =
        ScoringService.score_ifsc [{r with attempts_zone1 := r.attempts}] ∧
      ScoringService.score_point_based [r] settings =
        ScoringService.score_point_based [{r with attempts_zone1 := r.attempts}] settings ∧
      ScoringService.score_point_based_dynamic [r] settings top_counts pc =
        ScoringService.score_point_based_dynamic
          [{r with attempts_zone1 := r.attempts}] settings top_counts pc ∧
      ScoringService.score_point_based_dynamic_attempts [r] settings top_counts pc =
        ScoringService.score_point_based_dynamic_attempts
          [{r with attempts_zone1 := r.attempts}] settings top_counts pc) ∧
    (r.attempts_zone2 = 0 →
      ScoringService.score_ifsc [r] =
        ScoringService.score_ifsc [{r with attempts_zone2 := r.attempts}]) ∧
    (r.zone2 = true → r.top = false →
      ScoringService.score_point_based [r] settings =
        ScoringService.score_point_based [{r with attempts := 0}] settings ∧
      ScoringService.score_point_based_dynamic [r] settings top_counts pc =
        ScoringService.score_point_based_dynamic
          [{r with attempts := 0}] settings top_counts pc ∧
      ScoringService.score_point_based_dynamic_attempts [r] settings top_counts pc =
        ScoringService.score_point_based_dynamic_attempts
          [{r with attempts := 0}] settings top_counts pc) := by
  obtain ⟨bid, bzc, t, z1, z2, a, at_, a1, a2, v, u⟩ := r
  refine ⟨?_, ?_, ?_, ?_⟩
  · intro h
    simp only at h
    subst h
    cases t <;> cases z1 <;> cases z2 <;>
      simp [ScoringService.score_ifsc, ScoringService.score_point_based,
        ScoringService.score_point_based_dynamic,
        ScoringService.score_point_based_dynamic_attempts,
        ScoringService.pb_points_for, ScoringService.pbd_points_for,
        ScoringService.pbda_points_for, ScoringService.total_attempts_for,
        ScoringService.top_attempts_used, ScoringService.zone_attempts_used]
  · intro h
    simp only at h
    subst h
    cases t <;> cases z1 <;> cases z2 <;>
      simp [ScoringService.score_ifsc, ScoringService.score_point_based,
        ScoringService.score_point_based_dynamic,
        ScoringService.score_point_based_dynamic_attempts,
        ScoringService.pb_points_for, ScoringService.pbd_points_for,
        ScoringService.pbda_points_for, ScoringService.total_attempts_for,
        ScoringService.top_attempts_used, ScoringService.zone_attempts_used]
  · intro h
    simp only at h
    subst h
    cases t <;> cases z1 <;> cases z2 <;>
      simp [ScoringService.score_ifsc, ScoringService.score_point_based,
        ScoringService.score_point_based_dynamic,
        ScoringService.score_point_based_dynamic_attempts,
        ScoringService.pb_points_for, ScoringService.pbd_points_for,
        ScoringService.pbda_points_for, ScoringService.total_attempts_for,
        ScoringService.top_attempts_used, ScoringService.zone_attempts_used]
  · intro h1 h2
    simp only at h1 h2
    subst h1
    subst h2
    cases z1 <;>
      simp [ScoringService.score_ifsc, ScoringService.score_point_based,
        ScoringService.score_point_based_dynamic,
        ScoringService.score_point_based_dynamic_attempts,
        ScoringService.pb_points_for, ScoringService.pbd_points_for,
        ScoringService.pbda_points_for, ScoringService.total_attempts_for,
        ScoringService.top_attempts_used, ScoringService.zone_attempts_used]

/-- **C7** witness: the fallback equivalence applied to a topped result
with `attempts_top = 0` (legacy value 4), and the zone2 exception applied
to an achieved-zone2 result, at concrete inputs. -/
theorem legacy_attempts_fallback_characterization_witness :
    ((⟨2, 1, true, true, false, 4, 0, 2, 0, 0, 0⟩ : Result).attempts_top = 0) ∧
    ScoringService.score_point_based
        [⟨2, 1, true, true, false, 4, 0, 2, 0, 0, 0⟩]
        ⟨"ifsc", 25, 30, 0, 100, 90, 80, 70, 60, 50, 42, 44, 46, 55, 10, 10, 10, 0, 0, 0, 1⟩ =
      ScoringService.score_point_based
        [⟨2, 1, true, true, false, 4, 4, 2, 0, 0, 0⟩]
        ⟨"ifsc", 25, 30, 0, 100, 90, 80, 70, 60, 50, 42, 44, 46, 55, 10, 10, 10, 0, 0, 0, 1⟩ ∧
    ScoringService.score_point_based_dynamic_attempts
        [⟨3, 2, false, true, true, 9, 0, 1, 2, 0, 0⟩]
        ⟨"ifsc", 25, 30, 0, 100, 90, 80, 70, 60, 50, 42, 44, 46, 55, 10, 10, 10, 0, 0, 0, 1⟩
        (fun _ => 0) 5 =
      ScoringService.score_point_based_dynamic_attempts
        [⟨3, 2, false, true, true, 0, 0, 1, 2, 0, 0⟩]
        ⟨"ifsc", 25, 30, 0, 100, 90, 80, 70, 60, 50, 42, 44, 46, 55, 10, 10, 10, 0, 0, 0, 1⟩
        (fun _ => 0) 5 := by
  have h1 := legacy_attempts_fallback_characterization
    ⟨"ifsc", 25, 30, 0, 100, 90, 80, 70, 60, 50, 42, 44, 46, 55, 10, 10, 10, 0, 0, 0, 1⟩
    (fun _ => 0) 5 ⟨2, 1, true, true, false, 4, 0, 2, 0, 0, 0⟩
  have h2 := legacy_attempts_fallback_characterization
    ⟨"ifsc", 25, 30, 0, 100, 90, 80, 70, 60, 50, 42, 44, 46, 55, 10, 10, 10, 0, 0, 0, 1⟩
    (fun _ => 0) 5 ⟨3, 2, false, true, true, 9, 0, 1, 2, 0, 0⟩
  exact ⟨rfl, (h1.1 rfl).2.1, (h2.2.2.2 rfl rfl).2.2⟩

namespace ScoringService

lemma rank_loop_length (key : Entry → SortKey) :
    ∀ (l : List Entry) (idx : Nat) (last : Option SortKey) (r : Nat),
    (rank_loop key l idx last r).length = l.length
  | [], _, _, _ => rfl
  | _ :: rest, idx, last, r => by
    simp only [rank_loop, List.length_cons, rank_loop_length key rest]

lemma rank_loop_map_fst (key : Entry → SortKey) :
    ∀ (l : List Entry) (idx : Nat) (last : Option SortKey) (r : Nat),
    (rank_loop key l idx last r).map Prod.fst = l
  | [], _, _, _ => rfl
  | _ :: rest, idx, last, r => by
    simp only [rank_loop, List.map_cons, rank_loop_map_fst key rest]

lemma rank_loop_get_fst (key : Entry → SortKey) :
    ∀ (l : List Entry) (idx : Nat) (last : Option SortKey) (r : Nat) (i : Nat)
    (hi : i < (rank_loop key l idx last r).length) (hl : i < l.length),
    ((rank_loop key l idx last r).get ⟨i, hi⟩).1 = l.get ⟨i, hl⟩
  | [], _, _, _, i, hi, hl => absurd hl (by simp)
  | e :: rest, idx, last, r, 0, hi, hl => rfl
  | e :: rest, idx, last, r, i + 1, hi, hl => by
    have hi2 : i < (rank_loop key rest (idx + 1) (some (key e))
        (if some (key e) = last then r else idx)).length := by
      rw [rank_loop_length]
      simpa using hl
    exact rank_loop_get_fst key rest (idx + 1) (some (key e))
      (if some (key e) = last then r else idx) i hi2 (by simpa using hl)

lemma rank_loop_head (key : Entry → SortKey) (e : Entry) (rest : List Entry)
    (idx : Nat) (last : Option SortKey) (r : Nat)
    (h0 : 0 < (rank_loop key (e :: rest) idx last r).length) :
    ((rank_loop key (e :: rest) idx last r).get ⟨0, h0⟩).2 =
      if some (key e) = last then r else idx := rfl

lemma rank_loop_rank_succ (key : Entry → SortKey) :
    ∀ (l : List Entry) (idx : Nat) (last : Option SortKey) (r : Nat) (i : Nat)
    (hi1 : i + 1 < (rank_loop key l idx last r).length)
    (hi : i < (rank_loop key l idx last r).length)
    (hl1 : i + 1 < l.length) (hl : i < l.length),
    ((rank_loop key l idx last r).get ⟨i + 1, hi1⟩).2 =
      if key (l.get ⟨i + 1, hl1⟩) = key (l.get ⟨i, hl⟩) then
        ((rank_loop key l idx last r).get ⟨i, hi⟩).2
      else idx + (i + 1)
  | [], _, _, _, i, hi1, hi, hl1, hl => absurd hl (by simp)
  | e :: rest, idx, last, r, 0, hi1, hi, hl1, hl => by
    match rest, hl1 with
    | e2 :: rest2, _ =>
      have h0 : 0 < (rank_loop key (e2 :: rest2) (idx + 1) (some (key e))
          (if some (key e) = last then r else idx)).length := by
        rw [rank_loop_length]; simp
      have hh := rank_loop_head key e2 rest2 (idx + 1) (some (key e))
        (if some (key e) = last then r else idx) h0
      show ((rank_loop key (e2 :: rest2) (idx + 1) (some (key e))
          (if some (key e) = last then r else idx)).get ⟨0, h0⟩).2 = _
      rw [hh]
      simp only [Option.some.injEq, List.get]
  | e :: rest, idx, last, r, i + 1, hi1, hi, hl1, hl => by
    have hr1 : i + 1 < (rank_loop key rest (idx + 1) (some (key e))
        (if some (key e) = last then r else idx)).length := by
      rw [rank_loop_length]; simpa using hl1
    have hr : i < (rank_loop key rest (idx + 1) (some (key e))
        (if some (key e) = last then r else idx)).length := by
      rw [rank_loop_length]; simpa using hl
    have ih := rank_loop_rank_succ key rest (idx + 1) (some (key e))
      (if some (key e) = last then r else idx) i hr1 hr
      (by simpa using hl1) (by simpa using hl)
    show ((rank_loop key rest (idx + 1) (some (key e))
        (if some (key e) = last then r else idx)).get ⟨i + 1, hr1⟩).2 = _
    rw [ih]
    have harith : idx + 1 + (i + 1) = idx + (i + 1 + 1) := by omega
    rw [harith]
    rfl

end ScoringService

namespace ScoringService

lemma rank_loop_head_none (key : Entry → SortKey) (l : List Entry)
    (h0 : 0 < (rank_loop key l 1 none 0).length) :
    ((rank_loop key l 1 none 0).get ⟨0, h0⟩).2 = 1 := by
  match l with
  | [] =>
    rw [rank_loop_length] at h0
    exact absurd h0 (by simp)
  | e :: rest => exact (rank_loop_head key e rest 1 none 0 h0).trans (by simp)

lemma rank_loop_eq_of_key_eq (key : Entry → SortKey) (l : List Entry)
    (hpw : l.Pairwise (fun a b => key a ≤ key b)) :
    ∀ (d i : Nat) (hi : i < (rank_loop key l 1 none 0).length)
      (hid : i + d < (rank_loop key l 1 none 0).length)
      (hli : i < l.length) (hlid : i + d < l.length),
    key (l.get ⟨i + d, hlid⟩) = key (l.get ⟨i, hli⟩) →
    ((rank_loop key l 1 none 0).get ⟨i + d, hid⟩).2 =
      ((rank_loop key l 1 none 0).get ⟨i, hi⟩).2 := by
  intro d
  induction d with
  | zero => intro i hi hid hli hlid hk; rfl
  | succ d ih =>
    intro i hi hid hli hlid hk
    have hlid' : i + d < l.length := by omega
    have hid' : i + d < (rank_loop key l 1 none 0).length := by
      rw [rank_loop_length] at hid ⊢; omega
    have h1 : key (l.get ⟨i, hli⟩) ≤ key (l.get ⟨i + d, hlid'⟩) := by
      rcases Nat.eq_zero_or_pos d with hd | hd
      · subst hd; exact le_refl _
      · exact List.pairwise_iff_get.mp hpw ⟨i, hli⟩ ⟨i + d, hlid'⟩ (by simp; omega)
    have h2 : key (l.get ⟨i + d, hlid'⟩) ≤ key (l.get ⟨i + d + 1, hlid⟩) :=
      List.pairwise_iff_get.mp hpw ⟨i + d, hlid'⟩ ⟨i + d + 1, hlid⟩ (by simp)
    have h2b : key (l.get ⟨i + d, hlid'⟩) ≤ key (l.get ⟨i, hli⟩) :=
      le_trans h2 (le_of_eq hk)
    have heq : key (l.get ⟨i + d, hlid'⟩) = key (l.get ⟨i, hli⟩) :=
      le_antisymm h2b h1
    have hstep := rank_loop_rank_succ key l 1 none 0 (i + d) hid hid' hlid hlid'
    have hk2 : key (l.get ⟨i + d + 1, hlid⟩) = key (l.get ⟨i, hli⟩) := hk
    show ((rank_loop key l 1 none 0).get ⟨i + d + 1, hid⟩).2 =
      ((rank_loop key l 1 none 0).get ⟨i, hi⟩).2
    rw [hstep, if_pos (hk2.trans heq.symm)]
    exact ih i hi hid' hli hlid' heq

end ScoringService

/-- **C4**: `rank_entries` returns a permutation of its input sorted by the
grading-system-specific key (case-folded name as final tie-break, built
into `sort_key`), and assigns competition ranks: the first entry has rank
1, entries with identical sort keys share a rank, and an entry whose key
differs from its predecessor's gets a rank equal to its 1-based position
in the sorted list. -/
theorem rank_entries_sorted_and_competition_ranked (gs : String)
    (entries : List ScoringService.Entry) :
    ((ScoringService.rank_entries gs entries).map Prod.fst).Perm entries ∧
    ((ScoringService.rank_entries gs entries).map Prod.fst).Pairwise
      (fun a b => ScoringService.sort_key gs a ≤ ScoringService.sort_key gs b) ∧
    (∀ h0 : 0 < (ScoringService.rank_entries gs entries).length,
      ((ScoringService.rank_entries gs entries).get ⟨0, h0⟩).2 = 1) ∧
    (∀ (i j : Nat) (hi : i < (ScoringService.rank_entries gs entries).length)
      (hj : j < (ScoringService.rank_entries gs entries).length),
      ScoringService.sort_key gs
          ((ScoringService.rank_entries gs entries).get ⟨i, hi⟩).1 =
        ScoringService.sort_key gs
          ((ScoringService.rank_entries gs entries).get ⟨j, hj⟩).1 →
      ((ScoringService.rank_entries gs entries).get ⟨i, hi⟩).2 =
        ((ScoringService.rank_entries gs entries).get ⟨j, hj⟩).2) ∧
    (∀ (i : Nat) (hi1 : i + 1 < (ScoringService.rank_entries gs entries).length)
      (hi : i < (ScoringService.rank_entries gs entries).length),
      ScoringService.sort_key gs
          ((ScoringService.rank_entries gs entries).get ⟨i + 1, hi1⟩).1 ≠
        ScoringService.sort_key gs
          ((ScoringService.rank_entries gs entries).get ⟨i, hi⟩).1 →
      ((ScoringService.rank_entries gs entries).get ⟨i + 1, hi1⟩).2 = i + 2) := by
  have htrans : ∀ a b c : ScoringService.Entry,
      ScoringService.entry_le gs a b = true → ScoringService.entry_le gs b c = true →
      ScoringService.entry_le gs a c = true := by
    intro a b c hab hbc
    simp only [ScoringService.entry_le, decide_eq_true_eq] at hab hbc ⊢
    exact le_trans hab hbc
  have htotal : ∀ a b : ScoringService.Entry,
      (ScoringService.entry_le gs a b || ScoringService.entry_le gs b a) = true := by
    intro a b
    simp only [ScoringService.entry_le, Bool.or_eq_true, decide_eq_true_eq]
    exact le_total _ _
  have hpw0 := List.sorted_mergeSort htrans htotal entries
  have hpw : (entries.mergeSort (ScoringService.entry_le gs)).Pairwise
      (fun a b => ScoringService.sort_key gs a ≤ ScoringService.sort_key gs b) :=
    hpw0.imp (by
      intro a b h
      simpa [ScoringService.entry_le, decide_eq_true_eq] using h)
  have hmap := ScoringService.rank_loop_map_fst (ScoringService.sort_key gs)
    (entries.mergeSort (ScoringService.entry_le gs)) 1 none 0
  have hlen := ScoringService.rank_loop_length (ScoringService.sort_key gs)
    (entries.mergeSort (ScoringService.entry_le gs)) 1 none 0
  have hfst : ∀ (i : Nat)
      (hi : i < (ScoringService.rank_entries gs entries).length)
      (hl : i < (entries.mergeSort (ScoringService.entry_le gs)).length),
      ((ScoringService.rank_entries gs entries).get ⟨i, hi⟩).1 =
        (entries.mergeSort (ScoringService.entry_le gs)).get ⟨i, hl⟩ :=
    fun i hi hl => ScoringService.rank_loop_get_fst (ScoringService.sort_key gs)
      (entries.mergeSort (ScoringService.entry_le gs)) 1 none 0 i hi hl
  refine ⟨?_, ?_, ?_, ?_, ?_⟩
  · have h : ((ScoringService.rank_entries gs entries).map Prod.fst).Perm
        (entries.mergeSort (ScoringService.entry_le gs)) := by
      rw [ScoringService.rank_entries, hmap]
    exact h.trans (List.mergeSort_perm entries _)
  · have h : (ScoringService.rank_entries gs entries).map Prod.fst =
        entries.mergeSort (ScoringService.entry_le gs) := by
      rw [ScoringService.rank_entries, hmap]
    rw [h]
    exact hpw
  · intro h0
    exact ScoringService.rank_loop_head_none (ScoringService.sort_key gs)
      (entries.mergeSort (ScoringService.entry_le gs)) h0
  · intro i j hi hj hk
    have hli : i < (entries.mergeSort (ScoringService.entry_le gs)).length := by
      rw [ScoringService.rank_entries, hlen] at hi; exact hi
    have hlj : j < (entries.mergeSort (ScoringService.entry_le gs)).length := by
      rw [ScoringService.rank_entries, hlen] at hj; exact hj
    rw [hfst i hi hli, hfst j hj hlj] at hk
    rcases le_or_lt i j with hij | hij
    · obtain ⟨d, rfl⟩ := Nat.exists_eq_add_of_le hij
      exact (ScoringService.rank_loop_eq_of_key_eq (ScoringService.sort_key gs)
        (entries.mergeSort (ScoringService.entry_le gs)) hpw d i hi hj hli hlj
        hk.symm).symm
    · obtain ⟨d, rfl⟩ := Nat.exists_eq_add_of_le (Nat.le_of_lt hij)
      exact ScoringService.rank_loop_eq_of_key_eq (ScoringService.sort_key gs)
        (entries.mergeSort (ScoringService.entry_le gs)) hpw d j hj hi hlj hli hk
  · intro i hi1 hi hk
    have hli1 : i + 1 < (entries.mergeSort (ScoringService.entry_le gs)).length := by
      rw [ScoringService.rank_entries, hlen] at hi1; exact hi1
    have hli : i < (entries.mergeSort (ScoringService.entry_le gs)).length := by
      rw [ScoringService.rank_entries, hlen] at hi; exact hi
    have hstep := ScoringService.rank_loop_rank_succ (ScoringService.sort_key gs)
      (entries.mergeSort (ScoringService.entry_le gs)) 1 none 0 i hi1 hi hli1 hli
    rw [hfst (i + 1) hi1 hli1, hfst i hi hli] at hk
    show ((ScoringService.rank_loop (ScoringService.sort_key gs)
        (entries.mergeSort (ScoringService.entry_le gs)) 1 none 0).get
        ⟨i + 1, hi1⟩).2 = i + 2
    rw [hstep, if_neg hk]
    omega

lemma rank_entries_length (gs : String) (entries : List ScoringService.Entry) :
    (ScoringService.rank_entries gs entries).length = entries.length := by
  unfold ScoringService.rank_entries
  rw [ScoringService.rank_loop_length, List.length_mergeSort]

/-- **C4** witness: on a concrete singleton scoreboard the ranked output is
a permutation of the input and the first entry receives rank 1. -/
theorem rank_entries_sorted_and_competition_ranked_witness :
    ((ScoringService.rank_entries "ifsc"
        [⟨⟨1, ['b'], none⟩, ⟨none, some 2, some 1, none, some 3, some 4⟩⟩]).map
      Prod.fst).Perm
      [⟨⟨1, ['b'], none⟩, ⟨none, some 2, some 1, none, some 3, some 4⟩⟩] ∧
    ((ScoringService.rank_entries "ifsc"
        [⟨⟨1, ['b'], none⟩, ⟨none, some 2, some 1, none, some 3, some 4⟩⟩]).get
      ⟨0, by simp [rank_entries_length]⟩).2 = 1 := by
  have h := rank_entries_sorted_and_competition_ranked "ifsc"
    [⟨⟨1, ['b'], none⟩, ⟨none, some 2, some 1, none, some 3, some 4⟩⟩]
  exact ⟨h.1, h.2.2.1 (by simp [rank_entries_length])⟩

/-- **C10**: if `settings` is `None` — or, for the two dynamic grading
systems, the tops tally is `None` — `build_scoreboard_entries` scores every
participant with the IFSC aggregator regardless of the requested grading
system, and for a point-based grading system `rank_entries` still sorts
those entries with the point-based sort key, whose points and attempts
components read 0 for every entry (the keys are absent from the IFSC
aggregate). -/
theorem build_scoreboard_degenerate_ifsc_fallback
    (participants : List Participant) (result_map : Nat → List Result)
    (gs : String) (settings : Option CompetitionSettings)
    (top_counts : Option (Nat → Nat)) (pc : Option Nat)
    (h : settings = none ∨
      (gs ∈ ScoringService.DYNAMIC_SYSTEMS ∧ top_counts = none)) :
    ScoringService.build_scoreboard_entries participants result_map gs settings
        top_counts pc =
      ScoringService.rank_entries gs (participants.map (fun p =>
        ScoringService.Entry.mk p (ScoringService.score_ifsc (result_map p.id)))) ∧
    (gs ∈ ScoringService.POINT_BASED_SYSTEMS →
      ∀ p ∈ participants,
        ScoringService.sort_key gs
            (ScoringService.Entry.mk p (ScoringService.score_ifsc (result_map p.id))) =
          ScoringService.point_sort_key
            (ScoringService.Entry.mk p (ScoringService.score_ifsc (result_map p.id))) ∧
        ScoringService.eget (ScoringService.score_ifsc (result_map p.id)).points = 0 ∧
        ScoringService.eget (ScoringService.score_ifsc (result_map p.id)).attempts = 0) := by
  constructor
  · unfold ScoringService.build_scoreboard_entries
    dsimp only
    congr 1
    apply List.map_congr_left
    intro p _
    rcases h with hs | ⟨hd, ht⟩
    · subst hs
      rw [dif_neg (by simp), dif_neg (by simp), dif_neg (by simp)]
    · subst ht
      simp [ScoringService.DYNAMIC_SYSTEMS] at hd
      rcases hd with hd | hd
      · subst hd
        rw [dif_neg (by simp), dif_neg (by simp), dif_neg (by simp)]
      · subst hd
        rw [dif_neg (by simp), dif_neg (by simp), dif_neg (by simp)]
  · intro hpb p _
    refine ⟨?_, rfl, rfl⟩
    unfold ScoringService.sort_key
    rw [if_pos hpb]

/-- **C10** witness: a point-based scoreboard build with `settings = none`
falls back to IFSC scoring with a zero points component. -/
theorem build_scoreboard_degenerate_ifsc_fallback_witness :
    ScoringService.build_scoreboard_entries [⟨3, ['z'], none⟩] (fun _ => [])
        "point_based" none none none =
      ScoringService.rank_entries "point_based" ([⟨3, ['z'], none⟩].map (fun p =>
        ScoringService.Entry.mk p (ScoringService.score_ifsc ((fun _ => ([] : List Result)) p.id)))) ∧
    ScoringService.eget (ScoringService.score_ifsc
      ((fun _ => ([] : List Result)) (3 : Nat))).points = 0 := by
  have h := build_scoreboard_degenerate_ifsc_fallback [⟨3, ['z'], none⟩]
    (fun _ => []) "point_based" none none none (Or.inl rfl)
  refine ⟨h.1, ?_⟩
  have h2 := h.2 (by decide) ⟨3, ['z'], none⟩ (by simp)
  exact h2.2.1
